import Mathlib

/-!
Shallow embedding of the MCP_App database layer
(`src/mcp_server/server/db_layer/*.py`, `src/mcp_server/server/memory.py`).

Database access is modelled by an oracle (`Db`): the live schema column set per
table, the outcome of each schema-introspection attempt, the outcome of the
executor connection, and the result of running a SQL string with bound
parameters.  Python exceptions become `Except PyErr`; Python values returned by
the executor become the `Py` value universe; scalar condition values are a type
parameter `V` so that SQL text (a `String`) can never contain them.

String literals elide the quote characters that the Python error messages put
around identifiers; this changes no control flow.
-/

namespace MCP

/-- Python exception classes that the db layer raises or catches.
`valueError` is `ValueError`, `queryTimeout` is `QueryTimeoutError`
(connection.py line 14), `keyError` models `KeyError` from `filters[...]`,
`dbError` models driver exceptions (connection failures, query failures),
`other` models the remaining builtin exceptions (e.g. `TypeError`). -/
inductive PyErr where
  | valueError (m : String)
  | queryTimeout (m : String)
  | keyError (m : String)
  | dbError (m : String)
  | other (m : String)
deriving Repr, DecidableEq

/-- Python `str(e)`: the message carried by the exception. -/
def PyErr.msg : PyErr → String
  | .valueError m => m
  | .queryTimeout m => m
  | .keyError m => m
  | .dbError m => m
  | .other m => m

/-- Python values produced by the executor: `None`, scalar values coming from
the database or the filters (`v`), strings built by the code (`s`), numbers
(`nat`), lists, and dicts (association lists, insertion order preserved). -/
inductive Py (V : Type) where
  | none
  | v (x : V)
  | s (str : String)
  | nat (k : Nat)
  | list (xs : List (Py V))
  | dict (kvs : List (String × Py V))

/-- A bound query parameter as passed to `cur.execute(sql, params)`:
either a condition value, the row limit, or a table-name string
(the `information_schema` queries bind the table name). -/
inductive Param (V : Type) where
  | val (x : V)
  | num (k : Nat)
  | str (s : String)
deriving Repr, DecidableEq

/-- One database row under `psycopg.rows.dict_row`: column name to value. -/
abbrev Row (V : Type) : Type := List (String × V)

/-- Outcome of one schema-introspection attempt in `validate_columns`
(validation.py lines 12-23): the `get_connection()` call sits before the
`try`, so its failure escapes, while failures inside the `try` are caught. -/
inductive FetchOutcome where
  | success
  | connFail (m : String)
  | queryFail (m : String)
deriving Repr, DecidableEq

/-- The database environment: the live schema (what `information_schema`
holds for each table), the outcome of schema introspection per table, the
outcome of the executor-side `get_connection()`, and the driver result of
`cur.execute(sql, params); cur.fetchall()`. -/
structure Db (V : Type) where
  live : String → List String
  schemaFetch : String → FetchOutcome
  connect : Except String Unit
  run : String → List (Param V) → Except String (List (Row V))

/-- validation.py lines 7-43, `validate_columns`.  On introspection success the
fetched list is exactly the live schema column list; a failure inside the
`try` yields the `["*"]` fallback; a `get_connection` failure escapes. -/
def validate_columns (db : Db V) (tableName : String) (columns : List String) :
    Except PyErr (List String) :=
  match db.schemaFetch tableName with
  | .connFail m => .error (.dbError m)
  | .queryFail _ => .ok ["*"]
  | .success =>
    let available := db.live tableName
    if columns.isEmpty then .ok available
    else
      let valid := columns.filter (fun c => available.contains c)
      .ok (if valid.isEmpty then available else valid)

/-- validation.py lines 206-208 (also 114-116): strip a table prefix,
`column.split(".")[-1]`, before the membership check. -/
def columnNameForValidation (column : String) : String :=
  if column.data.contains '.' then (column.splitOn ".").getLastD column else column

/-- validation.py line 216: the operator allow-list. -/
def valid_operators : List String :=
  [">", "<", ">=", "<=", "=", "!=", "LIKE", "ILIKE", "BETWEEN", "IN",
   "IS NULL", "IS NOT NULL"]

/-- A condition dictionary as read by `parse_condition` (validation.py lines
200-203): `value` is `condition.get("value")`, `values` is
`condition.get("values", [])`. -/
structure Condition (V : Type) where
  column : String
  operator : String
  value : Option V
  values : List V
deriving Repr, DecidableEq

/-- validation.py lines 186-248, `parse_condition`.  Returns the WHERE-clause
template (placeholders only, never a value) and the bound-parameter list. -/
def parse_condition (db : Db V) (cond : Condition V) (tableName : String) :
    Except PyErr (String × List V) :=
  match validate_columns db tableName [] with
  | .error e => .error e
  | .ok available =>
    if (available.contains (columnNameForValidation cond.column)) = false then
      .error (.valueError ("Column " ++ cond.column ++ " not found in table " ++ tableName))
    else if (valid_operators.contains cond.operator) = false then
      .error (.valueError ("Invalid operator " ++ cond.operator))
    else if cond.operator = "IS NULL" ∨ cond.operator = "IS NOT NULL" then
      .ok (cond.column ++ " " ++ cond.operator, [])
    else if cond.operator = "BETWEEN" then
      if cond.values.length ≠ 2 then
        .error (.valueError "BETWEEN operator requires exactly 2 values")
      else
        .ok (cond.column ++ " BETWEEN %s AND %s", cond.values)
    else if cond.operator = "IN" then
      if cond.values.isEmpty then
        .error (.valueError "IN operator requires at least one value")
      else
        .ok (cond.column ++ " IN (" ++
              String.intercalate ", " (List.replicate cond.values.length "%s") ++ ")",
             cond.values)
    else if cond.operator = "LIKE" ∨ cond.operator = "ILIKE" then
      match cond.value with
      | Option.none => .error (.valueError (cond.operator ++ " operator requires a value"))
      | some v => .ok (cond.column ++ " " ++ cond.operator ++ " %s", [v])
    else
      match cond.value with
      | Option.none =>
        .error (.valueError ("Operator " ++ cond.operator ++ " requires a value"))
      | some v => .ok (cond.column ++ " " ++ cond.operator ++ " %s", [v])

/-- A join-columns dictionary (validation.py lines 60-61 read it with
defaults `"id"`/`"id"`; the defaults are applied at the call site below). -/
structure JoinColumns where
  table1_column : String
  table2_column : String
deriving Repr, DecidableEq

/-- validation.py lines 45-73, `validate_join_columns`. -/
def validate_join_columns (db : Db V) (table1 table2 : String) (jc : JoinColumns) :
    Except PyErr (String × String) :=
  match validate_columns db table1 [] with
  | .error e => .error e
  | .ok table1Columns =>
    if (table1Columns.contains jc.table1_column) = false then
      .error (.valueError ("Column " ++ jc.table1_column ++ " not found in table " ++ table1))
    else
      match validate_columns db table2 [] with
      | .error e => .error e
      | .ok table2Columns =>
        if (table2Columns.contains jc.table2_column) = false then
          .error (.valueError ("Column " ++ jc.table2_column ++ " not found in table " ++ table2))
        else .ok (jc.table1_column, jc.table2_column)

/-- validation.py lines 75-94, `validate_join_type`. -/
def validate_join_type (joinType : String) : Except PyErr String :=
  let normalizedType := joinType.toUpper.trim
  if (["INNER", "LEFT", "RIGHT", "FULL", "FULL OUTER"].contains normalizedType) = false then
    .error (.valueError ("Invalid join type " ++ joinType))
  else .ok normalizedType

/-- An order-by dictionary: `order_by.get("column")` may be absent,
`order_by.get("direction", "ASC")` defaults. -/
structure OrderBy where
  column : Option String
  direction : String
deriving Repr, DecidableEq

/-- validation.py lines 96-128, `validate_order_by`.  A missing column makes
`"." in column` raise `TypeError` in Python, modelled as `PyErr.other`. -/
def validate_order_by (db : Db V) (tableName : String) (ob : OrderBy) :
    Except PyErr String :=
  match ob.column with
  | Option.none => .error (.other "argument of type NoneType is not iterable")
  | some column =>
    let direction := ob.direction.toUpper
    match validate_columns db tableName [] with
    | .error e => .error e
    | .ok availableColumns =>
      if (availableColumns.contains (columnNameForValidation column)) = false then
        .error (.valueError ("Column " ++ column ++ " not found in table " ++ tableName))
      else if (["ASC", "DESC"].contains direction) = false then
        .error (.valueError ("Invalid order direction " ++ direction))
      else .ok ("ORDER BY " ++ column ++ " " ++ direction)

/-- validation.py lines 130-184, `validate_order_by_for_join`. -/
def validate_order_by_for_join (db : Db V) (table1 table2 : String) (ob : OrderBy) :
    Except PyErr String :=
  match ob.column with
  | Option.none => .error (.other "argument of type NoneType is not iterable")
  | some column0 =>
    let direction := ob.direction.toUpper
    let resolved : Except PyErr String :=
      if column0.data.contains '.' then
        let tablePrefix := ((column0.splitOn ".").headD column0)
        let columnName := ((column0.splitOn ".").getD 1 "")
        if tablePrefix = table1 then
          match validate_columns db table1 [] with
          | .error e => .error e
          | .ok cols1 =>
            if (cols1.contains columnName) = false then
              .error (.valueError ("Column " ++ column0 ++ " not found in table " ++ table1))
            else .ok column0
        else if tablePrefix = table2 then
          match validate_columns db table2 [] with
          | .error e => .error e
          | .ok cols2 =>
            if (cols2.contains columnName) = false then
              .error (.valueError ("Column " ++ column0 ++ " not found in table " ++ table2))
            else .ok column0
        else
          .error (.valueError ("Table prefix " ++ tablePrefix ++ " not found"))
      else
        match validate_columns db table1 [] with
        | .error e => .error e
        | .ok cols1 =>
          match validate_columns db table2 [] with
          | .error e => .error e
          | .ok cols2 =>
            if cols1.contains column0 ∧ cols2.contains column0 then
              .error (.valueError ("Column " ++ column0 ++ " exists in both tables"))
            else if cols1.contains column0 then .ok (table1 ++ "." ++ column0)
            else if cols2.contains column0 then .ok (table2 ++ "." ++ column0)
            else
              .error (.valueError ("Column " ++ column0 ++ " not found in either table"))
    match resolved with
    | .error e => .error e
    | .ok column =>
      if (["ASC", "DESC"].contains direction) = false then
        .error (.valueError ("Invalid order direction " ++ direction))
      else .ok ("ORDER BY " ++ column ++ " " ++ direction)

/-- Modelled from the spec: `format_columns_for_sql` is imported by the
executor from `query_builder`, but the `query_builder.py` in the tree does
not define it; spec section 4.3 describes the column-list slot of each
template, so the formatter is the comma join of the validated names. -/
def format_columns_for_sql (columns : List String) : String :=
  String.intercalate ", " columns

/-- Modelled from the spec: `format_join_condition`, also missing from
`query_builder.py`; spec section 4.3 table-qualifies the join columns. -/
def format_join_condition (table1 table2 table1Col table2Col : String) : String :=
  table1 ++ "." ++ table1Col ++ " = " ++ table2 ++ "." ++ table2Col

/-- Modelled from the spec: `ACTION_SQL_MAP["fetch_tables"]`, missing from
`query_builder.py`; the older monolithic `db_layer.py` carries the same
template. -/
def fetchTablesSql : String :=
  "SELECT table_schema, table_name FROM information_schema.tables;"

/-- Modelled from the spec: `ACTION_SQL_MAP["fetch_n_records"]` filled by
`.format(columns_str, table_name, where_clause, order_by_clause)` (executor.py
line 72); spec section 4.3: slots for column list, table name, WHERE clause,
ORDER BY clause and a trailing LIMIT placeholder bound as a parameter. -/
def fetchNRecordsSql (columnsStr tableName whereClause orderByClause : String) : String :=
  "SELECT " ++ columnsStr ++ " FROM space_product_aies." ++ tableName ++
    whereClause ++ orderByClause ++ " LIMIT %s;"

/-- Modelled from the spec: `ACTION_SQL_MAP["fetch_n_joined_records"]` filled
by `.format(columns_str, table1, join_type, table2, join_condition,
where_clause, order_by_clause)` (executor.py line 167). -/
def fetchNJoinedSql (columnsStr table1 joinType table2 joinCondition whereClause
    orderByClause : String) : String :=
  "SELECT " ++ columnsStr ++ " FROM space_product_aies." ++ table1 ++ " " ++
    joinType ++ " JOIN space_product_aies." ++ table2 ++ " ON " ++ joinCondition ++
    whereClause ++ orderByClause ++ " LIMIT %s;"

/-- Modelled from the spec: `ACTION_SQL_MAP["fetch_n_appended_records"]` filled
by `.format(columns_str, table1, where_clause, columns_str, table2,
where_clause, order_by_clause)` (executor.py line 238); spec section 4.3 calls
it the UNION ALL query over the common columns. -/
def fetchNAppendedSql (columnsStr1 table1 whereClause1 columnsStr2 table2 whereClause2
    orderByClause : String) : String :=
  "SELECT " ++ columnsStr1 ++ " FROM space_product_aies." ++ table1 ++ whereClause1 ++
    " UNION ALL SELECT " ++ columnsStr2 ++ " FROM space_product_aies." ++ table2 ++
    whereClause2 ++ orderByClause ++ " LIMIT %s;"

/-- Modelled from the spec: `ACTION_SQL_MAP["summarize_column"]` filled by
`.format(column, table_name, column)` (executor.py line 259); the result rows
carry the column value and a `count` field (executor.py line 272). -/
def summarizeColumnSql (column tableName groupColumn : String) : String :=
  "SELECT " ++ column ++ ", COUNT(*) as count FROM space_product_aies." ++ tableName ++
    " GROUP BY " ++ groupColumn ++ ";"

/-- Modelled from the spec: `ACTION_SQL_MAP["analyze_relationship"]` filled by
`.format(categorical, categorical, quantitative, quantitative, table,
categorical, quantitative)` (executor.py line 301); spec section 4.3: sum of
the quantitative column grouped by the categorical one. -/
def analyzeRelationshipSql (catSelect catOrder quantSum quantName tableName groupCol
    orderCol : String) : String :=
  "SELECT " ++ catSelect ++ ", SUM(" ++ quantSum ++ ") as " ++ quantName ++
    " FROM space_product_aies." ++ tableName ++ " GROUP BY " ++ groupCol ++
    " ORDER BY " ++ catOrder ++ " " ++ orderCol ++ ";"

/-- Modelled from the spec: `ACTION_SQL_MAP["get_table_summary"]` filled by
`.format(table_name)` (executor.py line 335); the older monolithic
`db_layer.py` line 22 carries the same template. -/
def tableSummaryCountSql (tableName : String) : String :=
  "SELECT COUNT(*) as row_count FROM space_product_aies." ++ tableName ++ ";"

/-- executor.py lines 340-345: the column-info query (whitespace normalized);
the quote character is written as an escape. -/
def tableSummaryColumnSql : String :=
  "SELECT column_name, data_type FROM information_schema.columns WHERE table_schema = \x27space_product_aies\x27 AND table_name = %s ORDER BY ordinal_position;"

/-- executor.py line 352: the sample-rows query. -/
def tableSummarySampleSql (tableName : String) : String :=
  "SELECT * FROM space_product_aies." ++ tableName ++ " LIMIT 3;"

/-- The filter dictionary handed to `execute_action`: every recognized key,
absent keys as `Option.none`.  `columns` carries the raw `filters.get("columns",
[])` default at use sites. -/
structure Filters (V : Type) where
  table_name : Option String
  table1 : Option String
  table2 : Option String
  n : Option Nat
  columns : Option (List String)
  condition : Option (Condition V)
  column : Option String
  value : Option V
  order_by : Option OrderBy
  join_columns : Option JoinColumns
  join_type : Option String
  categorical_column : Option String
  quantitative_column : Option String

/-- The empty filter dictionary. -/
def Filters.empty : Filters V :=
  ⟨Option.none, Option.none, Option.none, Option.none, Option.none, Option.none,
   Option.none, Option.none, Option.none, Option.none, Option.none, Option.none,
   Option.none⟩

/-- The executor failure shape, `[{"error": msg}]` (e.g. executor.py line 52). -/
def errorResult (m : String) : Py V :=
  .list [.dict [("error", .s m)]]

/-- `dict(row)` for one `dict_row` cursor row. -/
def rowToPy (r : Row V) : Py V :=
  .dict (r.map (fun kv => (kv.1, Py.v kv.2)))

/-- `[dict(row) for row in rows]` (e.g. executor.py line 77). -/
def rowsToPy (rows : List (Row V)) : Py V :=
  .list (rows.map rowToPy)

/-- Python exception propagation through a statement: an exception raised by
`c` skips the continuation `k`. -/
def bindE (c : Except PyErr α) (k : α → Except PyErr β) : Except PyErr β :=
  match c with
  | .error e => .error e
  | .ok a => k a

/-- `cur.execute(sql, params); rows = cur.fetchall()` followed by `k`:
driver failures surface as exceptions. -/
def bindRun (db : Db V) (sql : String) (ps : List (Param V))
    (k : List (Row V) → Except PyErr β) : Except PyErr β :=
  match db.run sql ps with
  | .error m => .error (.dbError m)
  | .ok rows => k rows

/-- A Python expression that raises `e` when the optional value is missing
(`None[...]` raising `TypeError`, `row["k"]` raising `KeyError`). -/
def bindO (o : Option α) (e : PyErr) (k : α → Except PyErr β) : Except PyErr β :=
  match o with
  | Option.none => .error e
  | some a => k a

/-- `cur.execute(sql, params); rows = cur.fetchall(); return [dict(r) ...]`. -/
def runRows (db : Db V) (sql : String) (ps : List (Param V)) : Except PyErr (Py V) :=
  bindRun db sql ps (fun rows => .ok (rowsToPy rows))

/-- The `try: ... except ValueError as e: return [{"error": str(e)}] except
Exception as e: return [{"error": prefixMsg + str(e)}]` pattern (executor.py
lines 48-54 and the like) around a step `c`, continuing with `k`. -/
def guardStep (prefixMsg : String) (c : Except PyErr α)
    (k : α → Except PyErr (Py V)) : Except PyErr (Py V) :=
  match c with
  | .error (.valueError m) => .ok (errorResult m)
  | .error e => .ok (errorResult (prefixMsg ++ e.msg))
  | .ok a => k a

/-- As `guardStep`, but the step may also early-return a response from inside
the `try` (`Sum.inl`), as at executor.py line 125. -/
def guardStepR (prefixMsg : String) (c : Except PyErr (Sum (Py V) α))
    (k : α → Except PyErr (Py V)) : Except PyErr (Py V) :=
  match c with
  | .error (.valueError m) => .ok (errorResult m)
  | .error e => .ok (errorResult (prefixMsg ++ e.msg))
  | .ok (.inl r) => .ok r
  | .ok (.inr a) => k a

/-- The `try: ... except ValueError as e: return [{"error": str(e)}]` pattern
with no generic handler (executor.py lines 90-93, 96-99): every other
exception keeps propagating. -/
def guardValueError (c : Except PyErr α)
    (k : α → Except PyErr (Py V)) : Except PyErr (Py V) :=
  match c with
  | .error (.valueError m) => .ok (errorResult m)
  | .error e => .error e
  | .ok a => k a

/-- The `try: ... except Exception as e: return [{"error": prefixMsg +
str(e)}]` pattern around a whole tail block (executor.py lines 66-80). -/
def guardAll (prefixMsg : String) (c : Except PyErr (Py V)) : Except PyErr (Py V) :=
  match c with
  | .error e => .ok (errorResult (prefixMsg ++ e.msg))
  | .ok r => .ok r

/-- executor.py lines 27-44: the limit default and the synthesized equality
condition of the `fetch_n_records` branch.  When `condition` is absent but
`column` and `value` are both present, an `=`-condition is built, and when `n`
is also absent the limit becomes 1 instead of the usual default 5. -/
def resolveFetchCondition (filters : Filters V) : Option (Condition V) × Nat :=
  let limit := filters.n.getD 5
  match filters.condition with
  | some c => (some c, limit)
  | Option.none =>
    match filters.column, filters.value with
    | some col, some v =>
      (some ⟨col, "=", some v, []⟩,
       match filters.n with
       | Option.none => 1
       | some _ => limit)
    | _, _ => (Option.none, limit)

/-- executor.py lines 24-80: the `fetch_n_records` branch. -/
def fetchNRecordsBranch (db : Db V) (filters : Filters V) : Except PyErr (Py V) :=
  match filters.table_name with
  | Option.none => .error (.keyError "table_name")
  | some tableName =>
    let columns := filters.columns.getD []
    let resolved := resolveFetchCondition filters
    let limit := resolved.2
    guardStep "Error parsing condition: "
      (match resolved.1 with
       | Option.none => .ok ("", ([] : List V))
       | some c =>
         bindE (parse_condition db c tableName)
           (fun wcps => .ok (" WHERE " ++ wcps.1, wcps.2)))
      (fun wcps =>
        guardStep "Error parsing order by: "
          (match filters.order_by with
           | Option.none => .ok ""
           | some ob =>
             bindE (validate_order_by db tableName ob) (fun s => .ok (" " ++ s)))
          (fun orderByClause =>
            guardAll "Error executing query: "
              (bindE (validate_columns db tableName columns)
                (fun validated =>
                  runRows db
                    (fetchNRecordsSql (format_columns_for_sql validated) tableName
                      wcps.1 orderByClause)
                    (wcps.2.map Param.val ++ [Param.num limit])))))

/-- executor.py lines 82-175: the `fetch_n_joined_records` branch. -/
def fetchNJoinedBranch (db : Db V) (filters : Filters V) : Except PyErr (Py V) :=
  match filters.table1 with
  | Option.none => .error (.keyError "table1")
  | some table1 =>
  match filters.table2 with
  | Option.none => .error (.keyError "table2")
  | some table2 =>
    let limit := filters.n.getD 5
    let columns := filters.columns.getD []
    let joinColumns := filters.join_columns.getD ⟨"id", "id"⟩
    guardValueError (validate_join_columns db table1 table2 joinColumns) (fun joinCols =>
    guardValueError (validate_join_type (filters.join_type.getD "INNER"))
      (fun normalizedJoinType =>
    guardStepR "Error parsing condition: "
      (match filters.condition with
       | Option.none => .ok (.inr ("", ([] : List V)))
       | some cond0 =>
         bindE
           (if cond0.column.data.contains '.' then
              (.ok (.inr cond0.column) : Except PyErr (Sum (Py V) String))
            else
              bindE (validate_columns db table1 []) (fun cols1 =>
              bindE (validate_columns db table2 []) (fun cols2 =>
                if cols1.contains cond0.column then
                  .ok (.inr (table1 ++ "." ++ cond0.column))
                else if cols2.contains cond0.column then
                  .ok (.inr (table2 ++ "." ++ cond0.column))
                else
                  .ok (.inl (errorResult ("Column " ++ cond0.column ++
                    " not found in either table " ++ table1 ++ " or " ++ table2))))))
           (fun s =>
             match s with
             | .inl r => .ok (.inl r)
             | .inr newColumn =>
               bindE (parse_condition db { cond0 with column := newColumn } table1)
                 (fun wcps => .ok (.inr (" WHERE " ++ wcps.1, wcps.2)))))
      (fun wcps =>
        guardStep "Error parsing order by: "
          (match filters.order_by with
           | Option.none => .ok ""
           | some ob =>
             bindE (validate_order_by_for_join db table1 table2 ob)
               (fun s => .ok (" " ++ s)))
          (fun orderByClause =>
            bindE
              (if columns.isEmpty then
                 bindE (validate_columns db table1 []) (fun cols1 =>
                 bindE (validate_columns db table2 []) (fun cols2 =>
                   .ok (String.intercalate ", "
                     (cols1.map (fun c => table1 ++ "." ++ c) ++
                      cols2.map (fun c => table2 ++ "." ++ c)))))
               else
                 bindE (validate_columns db table1 columns)
                   (fun validated => .ok (format_columns_for_sql validated)))
              (fun columnsStr =>
                guardAll "Error executing joined query: "
                  (runRows db
                    (fetchNJoinedSql columnsStr table1 normalizedJoinType table2
                      (format_join_condition table1 table2 joinCols.1 joinCols.2)
                      wcps.1 orderByClause)
                    (wcps.2.map Param.val ++ [Param.num limit])))))))

/-- executor.py lines 177-246: the `fetch_n_appended_records` branch.  The
Python `list(set(a) & set(b))` intersection has unspecified order; it is
modelled as the order-preserving filter of the first list. -/
def fetchNAppendedBranch (db : Db V) (filters : Filters V) : Except PyErr (Py V) :=
  match filters.table1 with
  | Option.none => .error (.keyError "table1")
  | some table1 =>
  match filters.table2 with
  | Option.none => .error (.keyError "table2")
  | some table2 =>
    let limit := filters.n.getD 5
    guardStep "Error parsing condition: "
      (match filters.condition with
       | Option.none => .ok ("", ([] : List V))
       | some c =>
         bindE (parse_condition db c table1)
           (fun wcps => .ok (" WHERE " ++ wcps.1, wcps.2)))
      (fun wcps =>
        guardStep "Error parsing order by: "
          (match filters.order_by with
           | Option.none => .ok ""
           | some ob =>
             let direction := ob.direction.toUpper
             bindE (validate_columns db table1 []) (fun cols1 =>
             bindE (validate_columns db table2 []) (fun cols2 =>
               let commonCols := cols1.filter (fun c => cols2.contains c)
               let colOk := match ob.column with
                            | some c => commonCols.contains c
                            | Option.none => false
               if colOk = false then
                 .error (.valueError ("Column " ++ ob.column.getD "None" ++
                   " not found in common columns between tables " ++ table1 ++
                   " and " ++ table2))
               else if (["ASC", "DESC"].contains direction) = false then
                 .error (.valueError ("Invalid order direction " ++ direction))
               else .ok (" ORDER BY " ++ ob.column.getD "None" ++ " " ++ direction))))
          (fun orderByClause =>
            guardAll "Error executing appended query: "
              (bindE (validate_columns db table1 []) (fun cols1 =>
               bindE (validate_columns db table2 []) (fun cols2 =>
                 let commonCols := cols1.filter (fun c => cols2.contains c)
                 if commonCols.isEmpty then
                   .ok (errorResult ("No common columns found between tables " ++
                     table1 ++ " and " ++ table2))
                 else
                   let columnsStr := String.intercalate ", " commonCols
                   runRows db
                     (fetchNAppendedSql columnsStr table1 wcps.1 columnsStr table2
                       wcps.1 orderByClause)
                     (wcps.2.map Param.val ++ wcps.2.map Param.val ++
                       [Param.num limit]))))))

/-- executor.py lines 248-285: the `summarize_column` branch. -/
def summarizeColumnBranch (db : Db V) (filters : Filters V) : Except PyErr (Py V) :=
  match filters.table_name with
  | Option.none => .error (.keyError "table_name")
  | some tableName =>
  match filters.column with
  | Option.none => .error (.keyError "column")
  | some column =>
    guardAll "Error summarizing column: "
      (bindE (validate_columns db tableName [column]) (fun validatedColumns =>
        if (validatedColumns.contains column) = false then
          .ok (errorResult ("Column " ++ column ++ " not found in table " ++
            tableName ++ ". Available columns: " ++
            String.intercalate ", " validatedColumns))
        else
          bindRun db (summarizeColumnSql column tableName column) [] (fun rows =>
            let summaryData := rowsToPy rows
            let visualization : Py V :=
              .dict [("type", .s "bar_chart"),
                     ("config", .dict
                       [("title", .s ("Distribution of " ++ column ++ " in " ++ tableName)),
                        ("value_field", .s column),
                        ("count_field", .s "count")]),
                     ("data", summaryData)]
            .ok (.dict [("data", summaryData),
                        ("visualization", visualization),
                        ("table_name", .s tableName),
                        ("column", .s column)]))))

/-- executor.py lines 287-328: the `analyze_relationship` branch. -/
def analyzeRelationshipBranch (db : Db V) (filters : Filters V) : Except PyErr (Py V) :=
  match filters.table_name with
  | Option.none => .error (.keyError "table_name")
  | some tableName =>
  match filters.categorical_column with
  | Option.none => .error (.keyError "categorical_column")
  | some categoricalColumn =>
  match filters.quantitative_column with
  | Option.none => .error (.keyError "quantitative_column")
  | some quantitativeColumn =>
    guardAll "Error analyzing relationship: "
      (bindE (validate_columns db tableName [categoricalColumn, quantitativeColumn])
        (fun validatedColumns =>
        if (validatedColumns.contains categoricalColumn) = false then
          .ok (errorResult ("Categorical column " ++ categoricalColumn ++
            " not found in table " ++ tableName))
        else if (validatedColumns.contains quantitativeColumn) = false then
          .ok (errorResult ("Quantitative column " ++ quantitativeColumn ++
            " not found in table " ++ tableName))
        else
          bindRun db (analyzeRelationshipSql categoricalColumn categoricalColumn
            quantitativeColumn quantitativeColumn tableName categoricalColumn
            quantitativeColumn) [] (fun rows =>
            let relationshipData := rowsToPy rows
            let visualization : Py V :=
              .dict [("type", .s "histogram"),
                     ("config", .dict
                       [("title", .s ("Sum of " ++ quantitativeColumn ++ " by " ++
                          categoricalColumn ++ " in " ++ tableName)),
                        ("category_field", .s categoricalColumn),
                        ("value_field", .s quantitativeColumn)]),
                     ("data", relationshipData)]
            .ok (.dict [("data", relationshipData),
                        ("visualization", visualization),
                        ("table_name", .s tableName),
                        ("categorical_column", .s categoricalColumn),
                        ("quantitative_column", .s quantitativeColumn)]))))

/-- `row["k"]` on a `dict_row`. -/
def lookupRow (r : Row V) (k : String) : Option V :=
  (r.find? (fun kv => kv.1 = k)).map (fun kv => kv.2)

/-- `[col["k"] for col in rows]`: a missing key raises `KeyError`. -/
def mapLookup (rows : List (Row V)) (k : String) : Except PyErr (List V) :=
  match rows with
  | [] => .ok []
  | r :: rest =>
    match lookupRow r k with
    | Option.none => .error (.keyError k)
    | some v =>
      match mapLookup rest k with
      | .error e => .error e
      | .ok vs => .ok (v :: vs)

/-- executor.py lines 330-364: the `get_table_summary` branch. -/
def getTableSummaryBranch (db : Db V) (filters : Filters V) : Except PyErr (Py V) :=
  match filters.table_name with
  | Option.none => .error (.keyError "table_name")
  | some tableName =>
    guardAll "Error getting table summary: "
      (bindRun db (tableSummaryCountSql tableName) [] (fun countRows =>
        bindO countRows.head? (.other "NoneType object is not subscriptable")
          (fun firstRow =>
        bindO (lookupRow firstRow "row_count") (.keyError "row_count")
          (fun rowCount =>
            bindRun db tableSummaryColumnSql [Param.str tableName] (fun columnInfo =>
              let columnCount := columnInfo.length
              bindE (mapLookup columnInfo "column_name") (fun columnNames =>
                bindRun db (tableSummarySampleSql tableName) [] (fun sampleRows =>
                  .ok (.list [.dict [("table_name", .s tableName)],
                              .dict [("row_count", .v rowCount)],
                              .dict [("column_count", .nat columnCount)],
                              .dict [("column_names", .list (columnNames.map Py.v))],
                              .dict [("sample_rows", rowsToPy sampleRows)]]))))))))

/-- executor.py lines 14-367, `_execute_query`: acquire a connection, then
dispatch on the action; an unmatched action (such as `"unknown"`) falls
through every branch and returns Python `None`. -/
def executeQueryInner (db : Db V) (action : String) (filters : Filters V) :
    Except PyErr (Py V) :=
  match db.connect with
  | .error m => .error (.dbError m)
  | .ok _ =>
    if action = "fetch_tables" then runRows db fetchTablesSql []
    else if action = "fetch_n_records" then fetchNRecordsBranch db filters
    else if action = "fetch_n_joined_records" then fetchNJoinedBranch db filters
    else if action = "fetch_n_appended_records" then fetchNAppendedBranch db filters
    else if action = "summarize_column" then summarizeColumnBranch db filters
    else if action = "analyze_relationship" then analyzeRelationshipBranch db filters
    else if action = "get_table_summary" then getTableSummaryBranch db filters
    else .ok .none

/-- connection.py line 12: the query timeout bound, in seconds. -/
def QUERY_TIMEOUT : Nat := 60

/-- Whether the worker thread finished before the `thread.join(timeout=...)`
deadline (connection.py lines 33-36). -/
inductive WorkerFate where
  | timeout
  | completed
deriving Repr, DecidableEq

/-- connection.py lines 22-45, `execute_with_timeout`: when the deadline
passes with the worker still alive, the worker's (eventual) outcome is
discarded and `QueryTimeoutError` is raised; otherwise the captured result is
returned or the captured exception re-raised. -/
def execute_with_timeout (fate : WorkerFate) (worker : Except PyErr α) :
    Except PyErr α :=
  match fate with
  | .timeout =>
    .error (.queryTimeout ("Query execution timed out after " ++
      toString QUERY_TIMEOUT ++ " seconds"))
  | .completed => worker

/-- executor.py lines 12, 369-375, `execute_action`: run `_execute_query`
under the timeout wrapper and convert every escaping exception into the
`[{"error": ...}]` shape. -/
def execute_action (db : Db V) (fate : WorkerFate) (action : String)
    (filters : Filters V) : Py V :=
  match execute_with_timeout fate (executeQueryInner db action filters) with
  | .ok r => r
  | .error (.queryTimeout m) => errorResult ("Query timeout: " ++ m)
  | .error e => errorResult ("Unexpected error: " ++ e.msg)

/-- memory.py lines 32-35: one stored query with its timestamp.  Timestamps
are modelled as integers (seconds). -/
structure QueryEntry where
  query : String
  timestamp : Int
deriving Repr, DecidableEq

/-- memory.py line 13: `_SESSION_EXPIRY = timedelta(hours=24)`, in seconds. -/
def SESSION_EXPIRY : Int := 24 * 3600

/-- The module-level memory state: `_session_memory` and
`_session_timestamps` (memory.py lines 10, 14), modelled as partial maps,
plus the defaults mapping.  The defaults mapping is modelled from the spec:
`tools.py` imports `get_default_parameters`/`update_default_parameters` from
`server.memory`, but the `memory.py` in the tree does not define them; spec
sections 3 and 4.5 describe a per-session mapping of resolved
entity-identifier fields sharing the session lifecycle. -/
structure MemoryState where
  mem : String → Option (List QueryEntry)
  defaults : String → Option (List (String × String))
  ts : String → Option Int

/-- Python truthiness of the `session_id` argument: `None` and `""` are
falsy (memory.py line 24 `if not session_id`). -/
def sessionFalsy : Option String → Bool
  | Option.none => true
  | some s => s.isEmpty

/-- Whether `session_id` is expired at time `now` (memory.py lines 102-106):
strictly older than the expiry window, judged from `_session_timestamps`. -/
def expiredAt (st : MemoryState) (now : Int) (sessionId : String) : Bool :=
  match st.ts sessionId with
  | some t => now - t > SESSION_EXPIRY
  | Option.none => false

/-- memory.py lines 99-112, `_cleanup_expired_sessions`: drop every expired
session from both `_session_memory` and `_session_timestamps`; the expiry
test uses the timestamps as they were on entry. -/
def cleanupExpiredSessions (st : MemoryState) (now : Int) : MemoryState :=
  { st with
    mem := fun k => if expiredAt st now k then Option.none else st.mem k,
    ts := fun k => if expiredAt st now k then Option.none else st.ts k }

/-- Modelled from the spec: passive expiry for the defaults mapping (spec
section 4.5: on every read, entries older than the expiry window are purged
process-wide); the code holding the defaults store is absent from the tree. -/
def cleanupAll (st : MemoryState) (now : Int) : MemoryState :=
  { mem := fun k => if expiredAt st now k then Option.none else st.mem k,
    defaults := fun k => if expiredAt st now k then Option.none else st.defaults k,
    ts := fun k => if expiredAt st now k then Option.none else st.ts k }

/-- memory.py lines 16-38, `store_query`: a falsy session id returns at once;
otherwise the entry is appended (creating the session if needed) and the
session timestamp refreshed. -/
def store_query (st : MemoryState) (sessionId : Option String) (query : String)
    (now : Int) : MemoryState :=
  if sessionFalsy sessionId then st
  else
    let sid := sessionId.getD ""
    let history := (st.mem sid).getD []
    { st with
      mem := fun k => if k = sid then some (history ++ [⟨query, now⟩]) else st.mem k,
      ts := fun k => if k = sid then some now else st.ts k }

/-- memory.py lines 40-66, `get_query_history`: early empty answer for a
falsy or unknown session, then the passive cleanup, then the query strings
(`if max_queries:` is a truthiness test, so `0` also means "all").  Returns
the answer together with the mutated module state. -/
def get_query_history (st : MemoryState) (sessionId : Option String)
    (maxQueries : Option Nat) (now : Int) : List String × MemoryState :=
  if sessionFalsy sessionId ∨ (st.mem (sessionId.getD "")).isNone then ([], st)
  else
    let st1 := cleanupExpiredSessions st now
    let queries := (st1.mem (sessionId.getD "")).getD []
    let queryStrings := queries.map (fun q => q.query)
    (match maxQueries with
     | some m =>
       if m = 0 then queryStrings
       else queryStrings.drop (queryStrings.length - m)
     | Option.none => queryStrings, st1)

/-- Modelled from the spec: `get_default_parameters` (imported by `tools.py`
from `server.memory` but absent from the `memory.py` in the tree).  Spec
section 4.5: `defaults(session_id) -> mapping of resolved entity-identifier
fields`, with the same passive process-wide expiry on every read as the
history store. -/
def get_default_parameters (st : MemoryState) (sessionId : Option String)
    (now : Int) : List (String × String) × MemoryState :=
  if sessionFalsy sessionId ∨ (st.defaults (sessionId.getD "")).isNone then ([], st)
  else
    let st1 := cleanupAll st now
    ((st1.defaults (sessionId.getD "")).getD [], st1)

mutual
/-- Whether no dict anywhere inside a `Py` value carries the key `bad`
(mutually with the list and dict-entry traversals). -/
def pyNoKey (bad : String) : Py V → Bool
  | .none => true
  | .v _ => true
  | .s _ => true
  | .nat _ => true
  | .list xs => pyListNoKey bad xs
  | .dict kvs => pyDictNoKey bad kvs
def pyListNoKey (bad : String) : List (Py V) → Bool
  | [] => true
  | x :: xs => pyNoKey bad x && pyListNoKey bad xs
def pyDictNoKey (bad : String) : List (String × Py V) → Bool
  | [] => true
  | kv :: kvs => (decide (kv.1 ≠ bad)) && pyNoKey bad kv.2 && pyDictNoKey bad kvs
end

/-- Whether no database row uses the column name `bad`. -/
def rowsNoKey (bad : String) (rows : List (Row V)) : Bool :=
  rows.all (fun r => r.all (fun kv => kv.1 != bad))

/-- The dict keys of the single element of the `[{"error": ...}]` shape. -/
def topDictKeys : Py V → Option (List String)
  | .list [.dict kvs] => some (kvs.map (fun kv => kv.1))
  | _ => Option.none

/-- Whether a needle character list occurs contiguously inside a haystack. -/
def listOccurs (needle : List Char) : List Char → Bool
  | [] => needle.isEmpty
  | a :: t => needle.isPrefixOf (a :: t) || listOccurs needle t

/-- Whether `needle` occurs as a substring of `hay`. -/
def occursIn (needle hay : String) : Bool :=
  listOccurs needle.data hay.data

/-- The spec's injection payload (the leading character is a single quote). -/
def injectionPayload : String := "\x27; DROP TABLE x;--"

/-- The operators taking exactly one scalar value: the six comparison
operators plus the two pattern operators. -/
def scalarLikeOperators : List String :=
  ["=", "!=", ">", "<", ">=", "<=", "LIKE", "ILIKE"]

/-- A healthy database for concrete runs: one column `id` everywhere,
introspection and connection succeed, every query returns no rows. -/
def dbOkEmpty : Db String :=
  { live := fun _ => ["id"],
    schemaFetch := fun _ => .success,
    connect := .ok (),
    run := fun _ _ => .ok [] }

/-- A database whose schema-introspection query fails inside the `try` of
`validate_columns` while the live schema still has the column `id`. -/
def dbSchemaFail : Db String :=
  { live := fun _ => ["id"],
    schemaFetch := fun _ => .queryFail "server closed the connection unexpectedly",
    connect := .ok (),
    run := fun _ _ => .ok [] }

/-- A database whose executor-side `get_connection()` raises. -/
def dbConnFail : Db String :=
  { live := fun _ => ["id"],
    schemaFetch := fun _ => .success,
    connect := .error "connection refused",
    run := fun _ _ => .ok [] }

/-- The empty memory state. -/
def memStateEmpty : MemoryState :=
  { mem := fun _ => Option.none,
    defaults := fun _ => Option.none,
    ts := fun _ => Option.none }

/-- A memory state holding one session `s1` last touched at time 0. -/
def memStateStale : MemoryState :=
  { mem := fun k => if k = "s1" then some [⟨"show tables", 0⟩] else Option.none,
    defaults := fun k => if k = "s1" then some [("ent_id", "E1")] else Option.none,
    ts := fun k => if k = "s1" then some 0 else Option.none }

/-- Filters carrying only `table_name`, `column` and `value` (the
`fetch_n_records` lookup-by-value shape). -/
def filtersColVal : Filters String :=
  { Filters.empty with
    table_name := some "users",
    column := some "id",
    value := some "42" }

/-- Filters carrying a BETWEEN condition with a single value. -/
def filtersBadBetween : Filters String :=
  { Filters.empty with
    table_name := some "users",
    condition := some ⟨"id", "BETWEEN", Option.none, ["1"]⟩ }

/-- Every dict key the executor itself writes into a response (executor.py:
the error shape, the visualization payloads and the table summary). -/
def executorFixedKeys : List String :=
  ["error", "data", "visualization", "type", "config", "title", "value_field",
   "count_field", "category_field", "table_name", "column", "categorical_column",
   "quantitative_column", "row_count", "column_count", "column_names", "sample_rows"]

/-- Whether every successful outcome of a step satisfies the key-absence
check (error outcomes hold vacuously). -/
def okNoKey (bad : String) (c : Except PyErr (Py V)) : Prop :=
  ∀ r, c = Except.ok r → pyNoKey bad r = true

/-!  Helper lemmas shared by the claim theorems. -/

/-- With introspection succeeding, validating the empty request returns the
live column list (validation.py lines 25-26). -/
theorem validate_columns_nil_of_success (db : Db V) (t : String)
    (h : db.schemaFetch t = FetchOutcome.success) :
    validate_columns db t [] = Except.ok (db.live t) := by
  simp [validate_columns, h]

/-- C1: for every condition whose operator takes one scalar value and whose
column passes validation, the WHERE template returned by `parse_condition` is
`column operator %s` whatever the value is — the value travels only in the
parameter list; in particular, for operator `=` on the validated column `id`,
the injection payload never occurs in the SQL text. -/
theorem parse_condition_no_literal_injection :
    (∀ (V : Type) (db : Db V) (tableName : String) (cond : Condition V),
        cond.operator ∈ scalarLikeOperators →
        db.schemaFetch tableName = FetchOutcome.success →
        ((db.live tableName).contains (columnNameForValidation cond.column)) = true →
        ∀ v : V,
          parse_condition db { cond with value := some v } tableName =
            Except.ok (cond.column ++ " " ++ cond.operator ++ " %s", [v]))
    ∧ parse_condition dbOkEmpty ⟨"id", "=", some injectionPayload, []⟩ "users" =
        Except.ok ("id = %s", [injectionPayload])
    ∧ occursIn injectionPayload "id = %s" = false := by
  refine ⟨?_, rfl, rfl⟩
  intro V db tableName cond hop hfetch hmem v
  have hval := validate_columns_nil_of_success db tableName hfetch
  have hmem2 : columnNameForValidation cond.column ∈ db.live tableName := by
    simpa using hmem
  simp only [scalarLikeOperators, List.mem_cons, List.not_mem_nil, or_false] at hop
  rcases hop with h | h | h | h | h | h | h | h <;>
    simp [parse_condition, hval, hmem2, h, valid_operators]

/-- C1 witness: the general clause instantiated at a concrete condition. -/
theorem parse_condition_no_literal_injection_witness :
    parse_condition dbOkEmpty
        { column := "id", operator := "LIKE", value := some "abc", values := [] }
        "users" =
      Except.ok ("id LIKE %s", ["abc"]) :=
  parse_condition_no_literal_injection.1 String dbOkEmpty "users"
    ⟨"id", "LIKE", Option.none, []⟩ (by simp [scalarLikeOperators]) rfl rfl "abc"

/-- C4: for a condition with a validated column, `parse_condition` enforces
the operator arity — BETWEEN with other than 2 values raises, IN with no
values raises, the null checks succeed with no value and bind no parameters,
and every scalar operator raises when no value is supplied. -/
theorem parse_condition_operator_arity
    (V : Type) (db : Db V) (tableName : String) (cond : Condition V)
    (hfetch : db.schemaFetch tableName = FetchOutcome.success)
    (hmem : ((db.live tableName).contains (columnNameForValidation cond.column)) = true) :
    (cond.operator = "BETWEEN" → cond.values.length ≠ 2 →
      parse_condition db cond tableName =
        Except.error (PyErr.valueError "BETWEEN operator requires exactly 2 values"))
    ∧ (cond.operator = "IN" → cond.values = [] →
      parse_condition db cond tableName =
        Except.error (PyErr.valueError "IN operator requires at least one value"))
    ∧ ((cond.operator = "IS NULL" ∨ cond.operator = "IS NOT NULL") →
      parse_condition db cond tableName =
        Except.ok (cond.column ++ " " ++ cond.operator, []))
    ∧ (cond.operator ∈ scalarLikeOperators → cond.value = Option.none →
      ∃ m, parse_condition db cond tableName = Except.error (PyErr.valueError m)) := by
  have hval := validate_columns_nil_of_success db tableName hfetch
  have hmem2 : columnNameForValidation cond.column ∈ db.live tableName := by
    simpa using hmem
  refine ⟨?_, ?_, ?_, ?_⟩
  · intro hop hlen
    simp [parse_condition, hval, hmem2, hop, valid_operators, hlen]
  · intro hop hvals
    simp [parse_condition, hval, hmem2, hop, valid_operators, hvals]
  · rintro (hop | hop) <;> simp [parse_condition, hval, hmem2, hop, valid_operators]
  · intro hop hv
    simp only [scalarLikeOperators, List.mem_cons, List.not_mem_nil, or_false] at hop
    rcases hop with h | h | h | h | h | h | h | h <;>
      exact ⟨_, by simp [parse_condition, hval, hmem2, h, valid_operators, hv]; rfl⟩

/-- C4 witness: a BETWEEN condition carrying one value fails with the exact
arity message. -/
theorem parse_condition_operator_arity_witness :
    parse_condition dbOkEmpty ⟨"id", "BETWEEN", Option.none, ["1"]⟩ "users" =
      Except.error (PyErr.valueError "BETWEEN operator requires exactly 2 values") :=
  (parse_condition_operator_arity String dbOkEmpty "users"
    ⟨"id", "BETWEEN", Option.none, ["1"]⟩ rfl rfl).1 rfl (by simp)

/-- C5 counterexample: with the live schema of the table holding only `id`,
a failing introspection query makes `validate_columns` return the fallback
`["*"]`, a name absent from the live column set — so the result is not a
subset of the schema columns on the internal error path. -/
theorem validate_columns_error_path_not_subset :
    validate_columns dbSchemaFail "t" ["id"] = Except.ok ["*"]
    ∧ ("*" ∈ dbSchemaFail.live "t" → False) := by
  refine ⟨rfl, ?_⟩
  simp [dbSchemaFail]

/-- C5 amended: when schema introspection succeeds every returned name is a
member of the live column set; on the internal error path the constant
sentinel `["*"]` is returned instead of schema names. -/
theorem validate_columns_subset_of_live :
    (∀ (V : Type) (db : Db V) (t : String) (req res : List String),
        db.schemaFetch t = FetchOutcome.success →
        validate_columns db t req = Except.ok res →
        ∀ c ∈ res, c ∈ db.live t)
    ∧ (∀ (V : Type) (db : Db V) (t : String) (req : List String) (m : String),
        db.schemaFetch t = FetchOutcome.queryFail m →
        validate_columns db t req = Except.ok ["*"]) := by
  constructor
  · intro V db t req res hfetch hres c hc
    simp only [validate_columns, hfetch] at hres
    split at hres
    · cases hres
      exact hc
    · cases hres
      split at hc
      · exact hc
      · have := List.mem_filter.mp hc
        simpa using this.2
  · intro V db t req m hfetch
    simp [validate_columns, hfetch]

/-- C5 witness: the subset clause at a concrete run. -/
theorem validate_columns_subset_of_live_witness :
    "id" ∈ dbOkEmpty.live "users" :=
  validate_columns_subset_of_live.1 String dbOkEmpty "users" ["id"] ["id"] rfl rfl
    "id" (by simp)

/-- C6: for a table whose live column set is non-empty (and introspection
succeeding), an empty request and an entirely invalid request both fall back
to the full column list; a partially valid request keeps exactly its valid
names; the result is never empty and never an exception. -/
theorem validate_columns_fallback
    (V : Type) (db : Db V) (t : String)
    (hfetch : db.schemaFetch t = FetchOutcome.success)
    (hne : db.live t ≠ []) :
    (validate_columns db t [] = Except.ok (db.live t))
    ∧ (∀ req : List String, req ≠ [] → (∀ c ∈ req, c ∉ db.live t) →
        validate_columns db t req = Except.ok (db.live t))
    ∧ (∀ req : List String, (∃ c ∈ req, c ∈ db.live t) →
        validate_columns db t req =
          Except.ok (req.filter (fun c => (db.live t).contains c)))
    ∧ (∀ req : List String, ∃ res,
        validate_columns db t req = Except.ok res ∧ res ≠ []) := by
  refine ⟨validate_columns_nil_of_success db t hfetch, ?_, ?_, ?_⟩
  · intro req hreq hinv
    have h1 : req.isEmpty = false := by
      cases req with
      | nil => exact absurd rfl hreq
      | cons a l => rfl
    have hfil : req.filter (fun c => (db.live t).contains c) = [] := by
      refine List.filter_eq_nil_iff.mpr ?_
      intro c hc
      simpa using hinv c hc
    simp only [validate_columns, hfetch, h1, hfil]
    simp
  · intro req hex
    obtain ⟨c, hcr, hcl⟩ := hex
    have h1 : req.isEmpty = false := by
      cases req with
      | nil => cases hcr
      | cons a l => rfl
    have hcf : c ∈ req.filter (fun c => (db.live t).contains c) :=
      List.mem_filter.mpr ⟨hcr, by simpa using hcl⟩
    have h2 : (req.filter (fun c => (db.live t).contains c)).isEmpty = false := by
      cases hq : req.filter (fun c => (db.live t).contains c) with
      | nil => rw [hq] at hcf; cases hcf
      | cons a l => rfl
    simp only [validate_columns, hfetch, h1, h2]
    simp
  · intro req
    by_cases hreq : req = []
    · subst hreq
      exact ⟨db.live t, validate_columns_nil_of_success db t hfetch, hne⟩
    · have h1 : req.isEmpty = false := by
        cases req with
        | nil => exact absurd rfl hreq
        | cons a l => rfl
      by_cases hfil : req.filter (fun c => (db.live t).contains c) = []
      · refine ⟨db.live t, ?_, hne⟩
        simp only [validate_columns, hfetch, h1, hfil]
        simp
      · refine ⟨req.filter (fun c => (db.live t).contains c), ?_, hfil⟩
        have h2 : (req.filter (fun c => (db.live t).contains c)).isEmpty = false := by
          cases hq : req.filter (fun c => (db.live t).contains c) with
          | nil => exact absurd hq hfil
          | cons a l => rfl
        simp only [validate_columns, hfetch, h1, h2]
        simp

/-- C6 witness: the spec's own example — requesting a nonexistent column
falls back to the full real column list. -/
theorem validate_columns_fallback_witness :
    validate_columns dbOkEmpty "users" ["nonexistent_col"] = Except.ok ["id"] := by
  have h := (validate_columns_fallback String dbOkEmpty "users" rfl
    (by simp [dbOkEmpty])).2.1 ["nonexistent_col"] (by simp) (by simp [dbOkEmpty])
  simpa [dbOkEmpty] using h

/-- C7: when the join deadline expires with the worker still alive, the
worker outcome is discarded unread (the thread is abandoned, not killed or
awaited), `QueryTimeoutError` carries the 60-second message, and
`execute_action` converts it into the Query-timeout error result. -/
theorem execute_with_timeout_expiry :
    QUERY_TIMEOUT = 60
    ∧ (∀ (α : Type) (w : Except PyErr α),
        execute_with_timeout WorkerFate.timeout w =
          Except.error (PyErr.queryTimeout "Query execution timed out after 60 seconds"))
    ∧ (∀ (α : Type) (w1 w2 : Except PyErr α),
        execute_with_timeout WorkerFate.timeout w1 =
          execute_with_timeout WorkerFate.timeout w2)
    ∧ (∀ (V : Type) (db : Db V) (action : String) (filters : Filters V),
        execute_action db WorkerFate.timeout action filters =
          errorResult ("Query timeout: Query execution timed out after 60 seconds")) :=
  ⟨rfl, fun _ _ => rfl, fun _ _ _ => rfl, fun _ _ _ _ => rfl⟩

/-- C10: `store_query` with a falsy (`None` or empty) session id is a no-op:
the whole memory state, both maps included, is returned unchanged. -/
theorem store_query_falsy_noop (st : MemoryState) (sid : Option String)
    (q : String) (now : Int) (h : sessionFalsy sid = true) :
    store_query st sid q now = st := by
  simp [store_query, h]

/-- C10 witness: both falsy shapes of the session id at a concrete state. -/
theorem store_query_falsy_noop_witness :
    store_query memStateStale (some "") "select 1" 999 = memStateStale
    ∧ store_query memStateStale Option.none "select 1" 999 = memStateStale :=
  ⟨store_query_falsy_noop memStateStale (some "") "select 1" 999 rfl,
   store_query_falsy_noop memStateStale Option.none "select 1" 999 rfl⟩

/-- C8: a session whose last-touched timestamp is older than the expiry
window is purged by the next history read — which returns an empty history —
and the purge is process-wide (every expired session goes); the spec-modelled
defaults read purges and answers empty the same way. -/
theorem session_expiry_on_read
    (st : MemoryState) (sid : String) (mq : Option Nat) (now t : Int)
    (hsid : sid.isEmpty = false)
    (hmem : (st.mem sid).isNone = false)
    (hdef : (st.defaults sid).isNone = false)
    (hts : st.ts sid = some t)
    (hold : now - t > SESSION_EXPIRY) :
    (get_query_history st (some sid) mq now).1 = []
    ∧ (get_query_history st (some sid) mq now).2.mem sid = Option.none
    ∧ (get_query_history st (some sid) mq now).2.ts sid = Option.none
    ∧ (∀ s2, expiredAt st now s2 = true →
        (get_query_history st (some sid) mq now).2.mem s2 = Option.none)
    ∧ (get_default_parameters st (some sid) now).1 = []
    ∧ (get_default_parameters st (some sid) now).2.defaults sid = Option.none := by
  have hexp : expiredAt st now sid = true := by
    simp [expiredAt, hts, hold]
  have hguard : (sessionFalsy (some sid) ∨ (st.mem sid).isNone = true) = False := by
    simp [sessionFalsy, hsid, hmem]
  have hguard2 : (sessionFalsy (some sid) ∨ (st.defaults sid).isNone = true) = False := by
    simp [sessionFalsy, hsid, hdef]
  refine ⟨?_, ?_, ?_, ?_, ?_, ?_⟩
  · simp only [get_query_history, Option.getD_some, hguard, if_false]
    simp [cleanupExpiredSessions, hexp]
    cases mq with
    | none => simp
    | some m => cases m <;> simp
  · simp only [get_query_history, Option.getD_some, hguard, if_false]
    simp [cleanupExpiredSessions, hexp]
  · simp only [get_query_history, Option.getD_some, hguard, if_false]
    simp [cleanupExpiredSessions, hexp]
  · intro s2 hs2
    simp only [get_query_history, Option.getD_some, hguard, if_false]
    simp [cleanupExpiredSessions, hs2]
  · simp only [get_default_parameters, Option.getD_some, hguard2, if_false]
    simp [cleanupAll, hexp]
  · simp only [get_default_parameters, Option.getD_some, hguard2, if_false]
    simp [cleanupAll, hexp]

/-- C8 witness: the stale state at a read 100000 seconds after its only
touch (the window being 86400 seconds). -/
theorem session_expiry_on_read_witness :
    (get_query_history memStateStale (some "s1") Option.none 100000).1 = []
    ∧ (get_query_history memStateStale (some "s1") Option.none 100000).2.mem "s1" =
        Option.none
    ∧ (get_default_parameters memStateStale (some "s1") 100000).1 = [] := by
  have h := session_expiry_on_read memStateStale "s1" Option.none 100000 0 rfl
    (by simp [memStateStale]) (by simp [memStateStale]) (by simp [memStateStale])
    (by norm_num [SESSION_EXPIRY])
  exact ⟨h.1, h.2.1, h.2.2.2.2.1⟩

/-- C9: when the `fetch_n_records` filters carry `column` and `value` but
neither `condition` nor `n`, the executor synthesizes an `=`-condition on
that column and binds the limit 1; in every other filter set lacking `n` the
limit stays the default 5; and under the synthesis (with no explicit column
list and no ordering) the query is executed with the bound parameter list
`[value, 1]`. -/
theorem fetch_by_value_limit_one
    (V : Type) (filters : Filters V) (col : String) (v : V)
    (hcond : filters.condition = Option.none)
    (hcol : filters.column = some col)
    (hval : filters.value = some v)
    (hn : filters.n = Option.none) :
    (resolveFetchCondition filters = (some ⟨col, "=", some v, []⟩, 1))
    ∧ (∀ g : Filters V, g.n = Option.none →
        (g.condition ≠ Option.none ∨ g.column = Option.none ∨ g.value = Option.none) →
        (resolveFetchCondition g).2 = 5)
    ∧ (∀ (db : Db V) (tableName : String),
        filters.table_name = some tableName →
        filters.columns = Option.none →
        filters.order_by = Option.none →
        db.schemaFetch tableName = FetchOutcome.success →
        ((db.live tableName).contains (columnNameForValidation col)) = true →
        fetchNRecordsBranch db filters =
          guardAll "Error executing query: "
            (runRows db
              (fetchNRecordsSql (format_columns_for_sql (db.live tableName)) tableName
                (" WHERE " ++ col ++ " = %s") "")
              [Param.val v, Param.num 1])) := by
  have hres : resolveFetchCondition filters = (some ⟨col, "=", some v, []⟩, 1) := by
    simp [resolveFetchCondition, hcond, hcol, hval, hn]
  refine ⟨hres, ?_, ?_⟩
  · intro g hgn hg
    rcases hc : g.condition with _ | c
    · rcases hg with hg | hg | hg
      · exact absurd hc hg
      · simp [resolveFetchCondition, hc, hg, hgn]
      · rcases hcol2 : g.column with _ | c2
        · simp [resolveFetchCondition, hc, hcol2, hgn]
        · simp [resolveFetchCondition, hc, hcol2, hg, hgn]
    · simp [resolveFetchCondition, hc, hgn]
  · intro db tableName htn hcols hob hfetch hmemcol
    have hvalcols := validate_columns_nil_of_success db tableName hfetch
    have hmem2 : columnNameForValidation col ∈ db.live tableName := by
      simpa using hmemcol
    have hparse : parse_condition db (⟨col, "=", some v, []⟩ : Condition V) tableName =
        Except.ok (col ++ " " ++ "=" ++ " %s", [v]) := by
      simp [parse_condition, hvalcols, hmem2, valid_operators]
    simp only [fetchNRecordsBranch, htn, hres, hcols, hob, hparse, hvalcols,
      Option.getD_none, guardStep, bindE]
    have hstr : (" WHERE " ++ (col ++ " " ++ "=" ++ " %s") : String) =
        " WHERE " ++ col ++ " = %s" := by
      apply String.ext
      simp [String.data_append]
    rw [hstr]
    simp [guardAll, fetchNRecordsSql]

/-- C9 witness: the `(column, value)` filters without `n` resolve to the
synthesized `=`-condition with limit 1. -/
theorem fetch_by_value_limit_one_witness :
    resolveFetchCondition filtersColVal =
      (some ⟨"id", "=", some "42", []⟩, 1) :=
  (fetch_by_value_limit_one String filtersColVal "id" "42" rfl rfl rfl rfl).1

/-!  Key-absence machinery for the executor contract. -/

theorem okNoKey_error (bad : String) (e : PyErr) :
    okNoKey bad (Except.error e : Except PyErr (Py V)) :=
  fun _ hr => by cases hr

theorem okNoKey_ok {bad : String} {r : Py V} (h : pyNoKey bad r = true) :
    okNoKey bad (Except.ok r) := by
  intro r2 hr2
  cases hr2
  exact h

theorem pyNoKey_errorResult {bad : String} (h : bad ≠ "error") (m : String) :
    pyNoKey bad (errorResult m : Py V) = true := by
  have h2 : "error" ≠ bad := fun hc => h hc.symm
  simp [errorResult, pyNoKey, pyListNoKey, pyDictNoKey, h2]

theorem pyDictNoKey_mapRow {bad : String} (r : Row V)
    (h : ∀ kv ∈ r, kv.1 ≠ bad) :
    pyDictNoKey bad (r.map (fun kv => (kv.1, Py.v kv.2))) = true := by
  induction r with
  | nil => simp [pyDictNoKey]
  | cons kv rest ih =>
    have h1 : kv.1 ≠ bad := h kv (List.mem_cons_self kv rest)
    have h2 := ih (fun kv2 hkv2 => h kv2 (List.mem_cons_of_mem kv hkv2))
    simp [pyDictNoKey, pyNoKey, h1, h2]

theorem pyNoKey_rowsToPy {bad : String} (rows : List (Row V))
    (h : rowsNoKey bad rows = true) :
    pyNoKey bad (rowsToPy rows) = true := by
  induction rows with
  | nil => simp [rowsToPy, pyNoKey, pyListNoKey]
  | cons r rest ih =>
    simp only [rowsNoKey, List.all_cons, Bool.and_eq_true] at h
    simp only [rowsToPy, List.map_cons, pyNoKey, pyListNoKey, Bool.and_eq_true]
    constructor
    · have hr : ∀ kv ∈ r, kv.1 ≠ bad := by
        intro kv hkv
        have := (List.all_eq_true.mp h.1) kv hkv
        simpa using this
      simpa [rowToPy, pyNoKey] using pyDictNoKey_mapRow r hr
    · have := ih (by simp [rowsNoKey, h.2])
      simpa [rowsToPy, pyNoKey] using this

theorem bindE_eq_ok {c : Except PyErr α} {k : α → Except PyErr β} {b : β}
    (h : bindE c k = Except.ok b) : ∃ a, c = Except.ok a ∧ k a = Except.ok b := by
  cases c with
  | error e => simp [bindE] at h
  | ok a => exact ⟨a, rfl, h⟩

theorem okNoKey_bindE {bad : String} {α : Type} {c : Except PyErr α}
    {k : α → Except PyErr (Py V)} (hk : ∀ a, okNoKey bad (k a)) :
    okNoKey bad (bindE c k) := by
  intro r hr
  obtain ⟨a, _, hka⟩ := bindE_eq_ok hr
  exact hk a r hka

theorem okNoKey_bindRun {bad : String} {db : Db V} {sql : String}
    {ps : List (Param V)} {k : List (Row V) → Except PyErr (Py V)}
    (hk : ∀ rows, rowsNoKey bad rows = true → okNoKey bad (k rows))
    (hrun : ∀ s p rows, db.run s p = Except.ok rows → rowsNoKey bad rows = true) :
    okNoKey bad (bindRun db sql ps k) := by
  intro r hr
  unfold bindRun at hr
  cases hd : db.run sql ps with
  | error m => rw [hd] at hr; cases hr
  | ok rows =>
    rw [hd] at hr
    exact hk rows (hrun sql ps rows hd) r hr

theorem okNoKey_bindO {bad : String} {α : Type} {o : Option α} {e : PyErr}
    {k : α → Except PyErr (Py V)} (hk : ∀ a, okNoKey bad (k a)) :
    okNoKey bad (bindO o e k) := by
  intro r hr
  cases o with
  | none => cases hr
  | some a => exact hk a r hr

theorem okNoKey_runRows {bad : String} (db : Db V) (sql : String)
    (ps : List (Param V))
    (hrun : ∀ s p rows, db.run s p = Except.ok rows → rowsNoKey bad rows = true) :
    okNoKey bad (runRows db sql ps) := by
  unfold runRows
  refine okNoKey_bindRun ?_ hrun
  intro rows hrows
  exact okNoKey_ok (pyNoKey_rowsToPy rows hrows)

theorem okNoKey_guardAll {bad : String} (he : bad ≠ "error")
    {c : Except PyErr (Py V)} (hc : okNoKey bad c) {p : String} :
    okNoKey bad (guardAll p c) := by
  intro r hr
  unfold guardAll at hr
  cases hcc : c with
  | error e =>
    rw [hcc] at hr
    cases hr
    exact pyNoKey_errorResult he _
  | ok r2 =>
    rw [hcc] at hr
    cases hr
    exact hc _ hcc

theorem okNoKey_guardStep {bad : String} (he : bad ≠ "error") {α : Type}
    {c : Except PyErr α} {k : α → Except PyErr (Py V)} {p : String}
    (hk : ∀ a, okNoKey bad (k a)) : okNoKey bad (guardStep p c k) := by
  intro r hr
  unfold guardStep at hr
  cases hcc : c with
  | error e =>
    rw [hcc] at hr
    cases e <;> (cases hr; exact pyNoKey_errorResult he _)
  | ok a =>
    rw [hcc] at hr
    exact hk a r hr

theorem okNoKey_guardStepR {bad : String} (he : bad ≠ "error") {α : Type}
    {c : Except PyErr (Sum (Py V) α)} {k : α → Except PyErr (Py V)} {p : String}
    (hinl : ∀ r, c = Except.ok (Sum.inl r) → pyNoKey bad r = true)
    (hk : ∀ a, okNoKey bad (k a)) : okNoKey bad (guardStepR p c k) := by
  intro r hr
  unfold guardStepR at hr
  cases hcc : c with
  | error e =>
    rw [hcc] at hr
    cases e <;> (cases hr; exact pyNoKey_errorResult he _)
  | ok s =>
    rw [hcc] at hr
    cases s with
    | inl r2 =>
      cases hr
      exact hinl _ hcc
    | inr a =>
      exact hk a r hr

theorem okNoKey_guardValueError {bad : String} (he : bad ≠ "error") {α : Type}
    {c : Except PyErr α} {k : α → Except PyErr (Py V)}
    (hk : ∀ a, okNoKey bad (k a)) : okNoKey bad (guardValueError c k) := by
  intro r hr
  unfold guardValueError at hr
  cases hcc : c with
  | error e =>
    rw [hcc] at hr
    cases e <;> first
      | (cases hr; exact pyNoKey_errorResult he _)
      | cases hr
  | ok a =>
    rw [hcc] at hr
    exact hk a r hr

theorem okNoKey_fetchNRecords {bad : String} (db : Db V) (filters : Filters V)
    (he : bad ≠ "error")
    (hrun : ∀ s p rows, db.run s p = Except.ok rows → rowsNoKey bad rows = true) :
    okNoKey bad (fetchNRecordsBranch db filters) := by
  unfold fetchNRecordsBranch
  cases filters.table_name with
  | none => exact okNoKey_error bad _
  | some tableName =>
    apply okNoKey_guardStep he
    intro wcps
    apply okNoKey_guardStep he
    intro obc
    apply okNoKey_guardAll he
    apply okNoKey_bindE
    intro validated
    exact okNoKey_runRows db _ _ hrun

theorem okNoKey_fetchNJoined {bad : String} (db : Db V) (filters : Filters V)
    (he : bad ≠ "error")
    (hrun : ∀ s p rows, db.run s p = Except.ok rows → rowsNoKey bad rows = true) :
    okNoKey bad (fetchNJoinedBranch db filters) := by
  unfold fetchNJoinedBranch
  cases filters.table1 with
  | none => exact okNoKey_error bad _
  | some table1 =>
  cases filters.table2 with
  | none => exact okNoKey_error bad _
  | some table2 =>
    apply okNoKey_guardValueError he
    intro joinCols
    apply okNoKey_guardValueError he
    intro normalizedJoinType
    apply okNoKey_guardStepR he
    · intro r hr
      cases hcond : filters.condition with
      | none => rw [hcond] at hr; cases hr
      | some cond0 =>
        rw [hcond] at hr
        obtain ⟨s, hs, hks⟩ := bindE_eq_ok hr
        cases s with
        | inr newColumn =>
          obtain ⟨wcps, _, hk2⟩ := bindE_eq_ok hks
          cases hk2
        | inl r2 =>
          cases hks
          by_cases hdot : cond0.column.data.contains '.' = true
          · rw [if_pos hdot] at hs
            cases hs
          · rw [if_neg hdot] at hs
            obtain ⟨cols1, _, hs2⟩ := bindE_eq_ok hs
            obtain ⟨cols2, _, hs3⟩ := bindE_eq_ok hs2
            split at hs3
            · cases hs3
            · split at hs3
              · cases hs3
              · cases hs3
                exact pyNoKey_errorResult he _
    · intro wcps
      apply okNoKey_guardStep he
      intro obc
      apply okNoKey_bindE
      intro columnsStr
      exact okNoKey_guardAll he (okNoKey_runRows db _ _ hrun)

theorem okNoKey_fetchNAppended {bad : String} (db : Db V) (filters : Filters V)
    (he : bad ≠ "error")
    (hrun : ∀ s p rows, db.run s p = Except.ok rows → rowsNoKey bad rows = true) :
    okNoKey bad (fetchNAppendedBranch db filters) := by
  unfold fetchNAppendedBranch
  cases filters.table1 with
  | none => exact okNoKey_error bad _
  | some table1 =>
  cases filters.table2 with
  | none => exact okNoKey_error bad _
  | some table2 =>
    apply okNoKey_guardStep he
    intro wcps
    apply okNoKey_guardStep he
    intro obc
    apply okNoKey_guardAll he
    apply okNoKey_bindE
    intro cols1
    apply okNoKey_bindE
    intro cols2
    simp only []
    split
    · exact okNoKey_ok (pyNoKey_errorResult he _)
    · exact okNoKey_runRows db _ _ hrun

theorem okNoKey_summarize {bad : String} (db : Db V) (filters : Filters V)
    (he : bad ≠ "error") (hdk : bad ≠ "data") (hvk : bad ≠ "visualization")
    (htk : bad ≠ "type") (hck : bad ≠ "config") (httk : bad ≠ "title")
    (hvf : bad ≠ "value_field") (hcf : bad ≠ "count_field")
    (htn : bad ≠ "table_name") (hcn : bad ≠ "column")
    (hrun : ∀ s p rows, db.run s p = Except.ok rows → rowsNoKey bad rows = true) :
    okNoKey bad (summarizeColumnBranch db filters) := by
  unfold summarizeColumnBranch
  cases filters.table_name with
  | none => exact okNoKey_error bad _
  | some tableName =>
  cases filters.column with
  | none => exact okNoKey_error bad _
  | some column =>
    apply okNoKey_guardAll he
    apply okNoKey_bindE
    intro validated
    split
    · exact okNoKey_ok (pyNoKey_errorResult he _)
    · refine okNoKey_bindRun ?_ hrun
      intro rows hrows
      apply okNoKey_ok
      have hrows2 := @pyNoKey_rowsToPy _ bad rows hrows
      simp only [pyNoKey, pyListNoKey, pyDictNoKey, Bool.and_eq_true, decide_eq_true_eq]
      repeat' apply And.intro
      all_goals first
        | exact hrows2
        | exact Ne.symm hdk
        | exact Ne.symm hvk
        | exact Ne.symm htk
        | exact Ne.symm hck
        | exact Ne.symm httk
        | exact Ne.symm hvf
        | exact Ne.symm hcf
        | exact Ne.symm htn
        | exact Ne.symm hcn
        | rfl
        | trivial

theorem okNoKey_analyze {bad : String} (db : Db V) (filters : Filters V)
    (he : bad ≠ "error") (hdk : bad ≠ "data") (hvk : bad ≠ "visualization")
    (htk : bad ≠ "type") (hck : bad ≠ "config") (httk : bad ≠ "title")
    (hcaf : bad ≠ "category_field") (hvf : bad ≠ "value_field")
    (htn : bad ≠ "table_name") (hcc : bad ≠ "categorical_column")
    (hqc : bad ≠ "quantitative_column")
    (hrun : ∀ s p rows, db.run s p = Except.ok rows → rowsNoKey bad rows = true) :
    okNoKey bad (analyzeRelationshipBranch db filters) := by
  unfold analyzeRelationshipBranch
  cases filters.table_name with
  | none => exact okNoKey_error bad _
  | some tableName =>
  cases filters.categorical_column with
  | none => exact okNoKey_error bad _
  | some categoricalColumn =>
  cases filters.quantitative_column with
  | none => exact okNoKey_error bad _
  | some quantitativeColumn =>
    apply okNoKey_guardAll he
    apply okNoKey_bindE
    intro validated
    split
    · exact okNoKey_ok (pyNoKey_errorResult he _)
    · split
      · exact okNoKey_ok (pyNoKey_errorResult he _)
      · refine okNoKey_bindRun ?_ hrun
        intro rows hrows
        apply okNoKey_ok
        have hrows2 := @pyNoKey_rowsToPy _ bad rows hrows
        simp only [pyNoKey, pyListNoKey, pyDictNoKey, Bool.and_eq_true, decide_eq_true_eq]
        repeat' apply And.intro
        all_goals first
          | exact hrows2
          | exact Ne.symm hdk
          | exact Ne.symm hvk
          | exact Ne.symm htk
          | exact Ne.symm hck
          | exact Ne.symm httk
          | exact Ne.symm hcaf
          | exact Ne.symm hvf
          | exact Ne.symm htn
          | exact Ne.symm hcc
          | exact Ne.symm hqc
          | rfl
          | trivial

theorem pyListNoKey_mapV {bad : String} (xs : List V) :
    pyListNoKey bad (xs.map Py.v) = true := by
  induction xs with
  | nil => rfl
  | cons x rest ih => simp [pyListNoKey, pyNoKey, ih]

theorem okNoKey_getTableSummary {bad : String} (db : Db V) (filters : Filters V)
    (he : bad ≠ "error") (htn : bad ≠ "table_name") (hrc : bad ≠ "row_count")
    (hcc : bad ≠ "column_count") (hcn : bad ≠ "column_names")
    (hsr : bad ≠ "sample_rows")
    (hrun : ∀ s p rows, db.run s p = Except.ok rows → rowsNoKey bad rows = true) :
    okNoKey bad (getTableSummaryBranch db filters) := by
  unfold getTableSummaryBranch
  cases filters.table_name with
  | none => exact okNoKey_error bad _
  | some tableName =>
    apply okNoKey_guardAll he
    refine okNoKey_bindRun ?_ hrun
    intro countRows hcr
    apply okNoKey_bindO
    intro firstRow
    apply okNoKey_bindO
    intro rowCount
    refine okNoKey_bindRun ?_ hrun
    intro columnInfo hci
    apply okNoKey_bindE
    intro columnNames
    refine okNoKey_bindRun ?_ hrun
    intro sampleRows hsrr
    apply okNoKey_ok
    have hs2 := @pyNoKey_rowsToPy _ bad sampleRows hsrr
    have hmap := @pyListNoKey_mapV _ bad columnNames
    simp only [pyNoKey, pyListNoKey, pyDictNoKey, Bool.and_eq_true, decide_eq_true_eq]
    repeat' apply And.intro
    all_goals first
      | exact hs2
      | exact hmap
      | exact Ne.symm htn
      | exact Ne.symm hrc
      | exact Ne.symm hcc
      | exact Ne.symm hcn
      | exact Ne.symm hsr
      | rfl
      | trivial

theorem okNoKey_executeQueryInner {bad : String} (db : Db V) (action : String)
    (filters : Filters V)
    (hbad : bad ∉ executorFixedKeys)
    (hrun : ∀ s p rows, db.run s p = Except.ok rows → rowsNoKey bad rows = true) :
    okNoKey bad (executeQueryInner db action filters) := by
  simp only [executorFixedKeys, List.mem_cons, List.not_mem_nil, or_false, not_or] at hbad
  obtain ⟨he, hdk, hvk, htk, hck, httk, hvf, hcf, hcaf, htn, hcolk, hcck, hqck,
    hrck, hcnt, hcnk, hsrk⟩ := hbad
  unfold executeQueryInner
  cases db.connect with
  | error m => exact okNoKey_error bad _
  | ok u =>
    by_cases h1 : action = "fetch_tables"
    · simp only [h1, if_true]
      exact okNoKey_runRows db _ _ hrun
    · simp only [h1, if_false]
      by_cases h2 : action = "fetch_n_records"
      · simp only [h2, if_true]
        exact okNoKey_fetchNRecords db filters he hrun
      · simp only [h2, if_false]
        by_cases h3 : action = "fetch_n_joined_records"
        · simp only [h3, if_true]
          exact okNoKey_fetchNJoined db filters he hrun
        · simp only [h3, if_false]
          by_cases h4 : action = "fetch_n_appended_records"
          · simp only [h4, if_true]
            exact okNoKey_fetchNAppended db filters he hrun
          · simp only [h4, if_false]
            by_cases h5 : action = "summarize_column"
            · simp only [h5, if_true]
              exact okNoKey_summarize db filters he hdk hvk htk hck httk hvf hcf
                htn hcolk hrun
            · simp only [h5, if_false]
              by_cases h6 : action = "analyze_relationship"
              · simp only [h6, if_true]
                exact okNoKey_analyze db filters he hdk hvk htk hck httk hcaf hvf
                  htn hcck hqck hrun
              · simp only [h6, if_false]
                by_cases h7 : action = "get_table_summary"
                · simp only [h7, if_true]
                  exact okNoKey_getTableSummary db filters he htn hrck hcnt hcnk
                    hsrk hrun
                · simp only [h7, if_false]
                  exact okNoKey_ok rfl

/-- C2 counterexample: a failing call (a BETWEEN condition with one value)
returns `[{"error": msg}]` whose only key is `error` — no `sql_query` and no
`sql_params` field is attached, contradicting the claimed error shape. -/
theorem execute_action_error_lacks_sql_provenance :
    execute_action dbOkEmpty WorkerFate.completed "fetch_n_records" filtersBadBetween =
      errorResult "BETWEEN operator requires exactly 2 values"
    ∧ topDictKeys (execute_action dbOkEmpty WorkerFate.completed "fetch_n_records"
        filtersBadBetween) = some ["error"] :=
  ⟨rfl, rfl⟩

/-- C2 amended: no exception escapes `execute_action` — every exception from
the inner run is converted to the `[{"error": ...}]` shape (timeouts with the
Query-timeout prefix, everything else with the Unexpected-error prefix), that
shape carries exactly the key `error`, and no response, failing or not, ever
carries a `sql_query` or `sql_params` field (for any key outside the fixed
executor vocabulary, assuming the database rows do not use it as a column). -/
theorem execute_action_uniform_error_contract :
    (∀ (V : Type) (db : Db V) (action : String) (filters : Filters V) (e : PyErr),
        executeQueryInner db action filters = Except.error e →
        execute_action db WorkerFate.completed action filters =
          (match e with
           | .queryTimeout m => errorResult ("Query timeout: " ++ m)
           | e2 => errorResult ("Unexpected error: " ++ e2.msg)))
    ∧ (∀ (V : Type) (db : Db V) (action : String) (filters : Filters V),
        execute_action db WorkerFate.timeout action filters =
          errorResult ("Query timeout: Query execution timed out after 60 seconds"))
    ∧ (∀ (V : Type) (m : String),
        topDictKeys (errorResult m : Py V) = some ["error"])
    ∧ (∀ (V : Type) (db : Db V) (fate : WorkerFate) (action : String)
        (filters : Filters V) (bad : String),
        bad ∉ executorFixedKeys →
        (∀ s p rows, db.run s p = Except.ok rows → rowsNoKey bad rows = true) →
        pyNoKey bad (execute_action db fate action filters) = true) := by
  refine ⟨?_, fun _ _ _ _ => rfl, fun _ _ => rfl, ?_⟩
  · intro V db action filters e hq
    unfold execute_action execute_with_timeout
    rw [hq]
    cases e <;> rfl
  · intro V db fate action filters bad hbad hrun
    have he : bad ≠ "error" := by
      intro hc
      exact hbad (by rw [hc]; simp [executorFixedKeys])
    unfold execute_action
    cases fate with
    | timeout => exact pyNoKey_errorResult he _
    | completed =>
      cases hq : executeQueryInner db action filters with
      | error e => cases e <;> exact pyNoKey_errorResult he _
      | ok r => exact okNoKey_executeQueryInner db action filters hbad hrun r hq

/-- C2 witness: the no-provenance clause at a failing concrete call, for both
spec-named keys. -/
theorem execute_action_uniform_error_contract_witness :
    pyNoKey "sql_query" (execute_action dbOkEmpty WorkerFate.completed
      "fetch_n_records" filtersBadBetween) = true
    ∧ pyNoKey "sql_params" (execute_action dbOkEmpty WorkerFate.completed
      "fetch_n_records" filtersBadBetween) = true := by
  constructor <;>
    exact execute_action_uniform_error_contract.2.2.2 String dbOkEmpty
      WorkerFate.completed "fetch_n_records" filtersBadBetween _
      (by simp [executorFixedKeys])
      (fun s p rows h => by
        simp only [dbOkEmpty] at h
        cases h
        rfl)

/-- C3 counterexample: the `unknown` action does open a database connection
(a refused connection surfaces through the result) and, when the connection
opens, the call returns Python `None` — not a `{message, action, sql_query,
sql_params}` dict. -/
theorem unknown_action_no_short_circuit :
    executeQueryInner dbConnFail "unknown" (Filters.empty : Filters String) =
      Except.error (PyErr.dbError "connection refused")
    ∧ execute_action dbOkEmpty WorkerFate.completed "unknown"
        (Filters.empty : Filters String) = Py.none
    ∧ topDictKeys (execute_action dbOkEmpty WorkerFate.completed "unknown"
        (Filters.empty : Filters String)) = Option.none :=
  ⟨rfl, rfl, rfl⟩

/-- C3 amended: for every filter set, `execute_action` with action `unknown`
matches no dispatch branch: after successfully opening (and closing) a
connection it returns `None`; when the connection cannot be opened, the
failure surfaces as an Unexpected-error result — in neither case is a fixed
unsupported-query shape returned. -/
theorem unknown_action_falls_through :
    (∀ (V : Type) (db : Db V) (filters : Filters V),
        db.connect = Except.ok () →
        execute_action db WorkerFate.completed "unknown" filters = Py.none)
    ∧ (∀ (V : Type) (db : Db V) (filters : Filters V) (m : String),
        db.connect = Except.error m →
        execute_action db WorkerFate.completed "unknown" filters =
          errorResult ("Unexpected error: " ++ m)) := by
  constructor
  · intro V db filters hconn
    simp [execute_action, execute_with_timeout, executeQueryInner, hconn]
  · intro V db filters m hconn
    simp [execute_action, execute_with_timeout, executeQueryInner, hconn, PyErr.msg]

/-- C3 witness: both connection outcomes at concrete databases. -/
theorem unknown_action_falls_through_witness :
    execute_action dbOkEmpty WorkerFate.completed "unknown"
      (Filters.empty : Filters String) = Py.none
    ∧ execute_action dbConnFail WorkerFate.completed "unknown"
        (Filters.empty : Filters String) =
      errorResult "Unexpected error: connection refused" :=
  ⟨unknown_action_falls_through.1 String dbOkEmpty Filters.empty rfl,
   unknown_action_falls_through.2 String dbConnFail Filters.empty
     "connection refused" rfl⟩

end MCP
